import Mathlib

/-!
Verification of the Azure AI agent relay app (src/app.py) against its
natural-language specification.  The Python module is shallowly embedded:
Python strings become Lean `String` (credentials as `List Char` where
character-level reasoning is needed), JSON bodies become structures with
`Option` fields for possibly-absent keys, the remote service becomes an
explicit environment of responses, and the module-global
`current_thread_id` becomes explicit state passing.  Remote calls are
counted in a trace so that claims about "no remote call is made" are
expressible.
-/

namespace AgentApp

/-- Python truthiness of an optional string: `None` and the empty string
are falsy, every other string is truthy.  `truthy o` keeps the value when
truthy and collapses to `none` otherwise, mirroring `if txt:` guards. -/
def truthy : Option String → Option String
  | none => none
  | some s => if s = "" then none else some s

/-- The `"text"` key of a content block, as seen by `send_message`:
either absent, present as a dict (whose `"value"` key may be absent),
or present as a non-dict value. -/
inductive TextField where
  | absent : TextField
  | dictVal : Option String → TextField
  | nonDict : TextField
deriving DecidableEq

/-- One content block of a message.  A block is either a dict — with an
optional `"text"` key (`TextField`) and an optional `"value"` key — or
not a dict at all (skipped by the `isinstance(block, dict)` guard). -/
inductive Block where
  | dict : TextField → Option String → Block
  | nonDict : Block
deriving DecidableEq

/-- The text the extraction loop assigns to `txt` for one block:
a structured text-dict shape is consulted first, and only when the
`"text"` key is absent or not a dict does the flat `"value"` key apply.
Mirrors app.py lines 155-160. -/
def blockTxt : Block → Option String
  | Block.dict (TextField.dictVal v) _ => v
  | Block.dict TextField.absent v => v
  | Block.dict TextField.nonDict v => v
  | Block.nonDict => none

/-- One entry of the messages listing: `role`, `created_at` (defaulting
to 0 when absent, per `msg.get("created_at", 0)`) and the content
blocks (`msg.get("content", []) or []` collapses absent/null to `[]`). -/
structure Message where
  role : Option String
  created_at : Nat
  content : List Block
deriving DecidableEq

/-- First truthy block text of a content list: the inner
`for block in ...` loop of app.py lines 153-162. -/
def firstBlockText : List Block → Option String
  | [] => none
  | b :: bs =>
    match truthy (blockTxt b) with
    | some s => some s
    | none => firstBlockText bs

/-- The descending comparison used by
`sorted(data, key=_created_at, reverse=True)`. -/
def newerEq (a b : Message) : Prop := b.created_at ≤ a.created_at

instance : DecidableRel newerEq := fun _ _ => Nat.decLe _ _

instance : IsTotal Message newerEq := ⟨fun a b => Nat.le_total b.created_at a.created_at⟩

instance : IsTrans Message newerEq := ⟨fun _ _ _ h h' => Nat.le_trans h' h⟩

/-- `sorted(data, key=_created_at, reverse=True)`: the listing sorted by
`created_at`, newest first.  A stable sort, like Python's `sorted`
(`insertionSort` with this relation keeps the original order of entries
with equal timestamps, so it computes exactly Python's result). -/
def sortByCreatedDesc (data : List Message) : List Message :=
  data.insertionSort newerEq

/-- The outer `for msg in sorted(...)` loop: scan messages in the given
order, and for each assistant-authored one return its first truthy block
text; fall through to later messages otherwise. -/
def scanMessages : List Message → Option String
  | [] => none
  | m :: ms =>
    if m.role = some "assistant" then
      match firstBlockText m.content with
      | some s => some s
      | none => scanMessages ms
    else scanMessages ms

/-- Fallback string returned when a completed run yields no extractable
assistant text (app.py line 163). -/
def noTextFallback : String := "Run completed, but no assistant text was found."

/-- Apology string returned when the poll budget is exhausted
(app.py line 174). -/
def apologyText : String := "Sorry, I couldn\x27t process your request at the moment."

/-- Reply extraction from a fetched messages listing after a completed
run: newest-first scan, fallback string when nothing is found
(app.py lines 146-163). -/
def extractReply (data : List Message) : String :=
  match scanMessages (sortByCreatedDesc data) with
  | some s => s
  | none => noTextFallback

/-- Response to one `runs.get` status poll: the HTTP status code, the
body's `status` field (absent when the key is missing or the body is
null — `status_resp.json() or \x7b\x7d`), and the optional nested
`last_error` code/message pair read on terminal failure. -/
structure PollResp where
  status : Nat
  runStatus : Option String
  lastErrorCode : Option String
  lastErrorMessage : Option String
deriving DecidableEq

/-- Response to the `runs.create` call: HTTP status and the body's
optional `id` field. -/
structure RunCreateResp where
  status : Nat
  id : Option String
deriving DecidableEq

/-- Response to the `messages.list` call: HTTP status and the body's
`data` array (absent/null collapses to the empty list, per
`(messages_resp.json() or \x7b\x7d).get("data", [])`). -/
structure ListingResp where
  status : Nat
  data : List Message
deriving DecidableEq

/-- The remote service, as seen by one `send_message` call: the HTTP
responses the service would give to each outbound request, in order.
`polls i` answers the `i`-th status poll. -/
structure SendEnv where
  msgCreateStatus : Nat
  runCreate : RunCreateResp
  polls : Nat → PollResp
  listing : ListingResp

/-- How many remote calls `send_message` made, by kind. -/
structure SendTrace where
  msgCreateCalls : Nat
  runCreateCalls : Nat
  pollCalls : Nat
  listingCalls : Nat
deriving DecidableEq

/-- The run statuses that abort the poll loop as terminal failures
(app.py line 165). -/
def isFailureStatus (s : Option String) : Bool :=
  s = some "failed" ∨ s = some "cancelled" ∨ s = some "expired"

/-- The poll loop of app.py lines 128-172, `fuel` iterations remaining,
next poll index `i`.  Returns the value `send_message` would return
(`none` for Python's `None`) together with the number of polls and of
messages-listing calls made from this point on.  Each iteration reads
one status: non-200 aborts; `completed` fetches the listing and extracts
the reply; `failed`/`cancelled`/`expired` aborts; anything else sleeps
and continues.  Exhausting the budget returns the apology string. -/
def pollLoop (env : SendEnv) : Nat → Nat → Option String × Nat × Nat
  | _, 0 => (some apologyText, 0, 0)
  | i, fuel + 1 =>
    let p := env.polls i
    if p.status ≠ 200 then (none, 1, 0)
    else if p.runStatus = some "completed" then
      if env.listing.status ≠ 200 then (none, 1, 1)
      else (some (extractReply env.listing.data), 1, 1)
    else if isFailureStatus p.runStatus then (none, 1, 0)
    else
      let r := pollLoop env (i + 1) fuel
      (r.1, r.2.1 + 1, r.2.2)

/-- Poll attempt budget: `for _ in range(45)` (app.py line 128). -/
def pollBudget : Nat := 45

/-- `send_message(thread_id, message)` (app.py lines 98-174): post the
user message, create a run, poll it, and extract the newest assistant
text.  `thread_id` and `message` only feed the outbound requests, so the
returned value is a function of the environment; the trace records how
many remote calls of each kind were made.  `none` models Python's
`None`. -/
def send_message (thread_id message : String) (env : SendEnv) :
    Option String × SendTrace :=
  let _ := thread_id
  let _ := message
  if env.msgCreateStatus ≠ 200 ∧ env.msgCreateStatus ≠ 201 then
    (none, ⟨1, 0, 0, 0⟩)
  else if env.runCreate.status ≠ 200 ∧ env.runCreate.status ≠ 201 then
    (none, ⟨1, 1, 0, 0⟩)
  else if truthy env.runCreate.id = none then
    (none, ⟨1, 1, 0, 0⟩)
  else
    let r := pollLoop env 0 pollBudget
    (r.1, ⟨1, 1, r.2.1, r.2.2⟩)

/-- Response to the `threads` creation call: HTTP status and the body's
optional `id` field. -/
structure ThreadCreateResp where
  status : Nat
  id : Option String
deriving DecidableEq

/-- The remote service as seen by one `/chat` request: the thread
creation response (with the detail string `_http_error_details` would
format on failure) plus the `send_message` environment. -/
structure ChatEnv where
  threadCreate : ThreadCreateResp
  threadCreateDetail : String
  send : SendEnv

/-- Result of `create_thread()` (app.py lines 74-95): on HTTP 200/201
the body's `id` (possibly `None`), otherwise an `_error` dict carrying
the formatted detail. -/
inductive ThreadResult where
  | ok : Option String → ThreadResult
  | err : String → ThreadResult
deriving DecidableEq

/-- `create_thread()` (app.py lines 74-95), as a function of the
environment. -/
def create_thread (env : ChatEnv) : ThreadResult :=
  if env.threadCreate.status = 200 ∨ env.threadCreate.status = 201 then
    ThreadResult.ok env.threadCreate.id
  else
    ThreadResult.err env.threadCreateDetail

/-- A JSON response from a route: HTTP status plus the fields the route
may set (`none` models an absent key). -/
structure Resp where
  status : Nat
  response : Option String
  thread_id : Option String
  error : Option String
  message : Option String
deriving DecidableEq

/-- Remote calls made while serving one `/chat` request: thread
creations plus the `send_message` trace. -/
structure ChatTrace where
  threadCreateCalls : Nat
  send : SendTrace
deriving DecidableEq

/-- The trace of a `/chat` request that made no remote call at all. -/
def noCalls : ChatTrace := ⟨0, ⟨0, 0, 0, 0⟩⟩

/-- The characters `str.strip()` removes: ASCII whitespace (space, tab,
newline, carriage return, vertical tab, form feed). -/
def isPySpace (c : Char) : Bool :=
  c = ' ' ∨ c = '\t' ∨ c = '\n' ∨ c = '\r' ∨ c = '\x0b' ∨ c = '\x0c'

/-- Python's `s.strip()`: drop whitespace from both ends. -/
def pyStrip (s : String) : String :=
  String.mk (((s.data.dropWhile isPySpace).reverse.dropWhile isPySpace).reverse)

/-- Python truthiness of the stored `current_thread_id`: `None` and the
empty string are falsy (`if not current_thread_id:`). -/
def handleTruthy : Option String → Bool
  | none => false
  | some s => s ≠ ""

/-- The `/chat` route (app.py lines 225-251).  `tid` is the module
global `current_thread_id` on entry; `messageField` is
`data.get("message", "")` (absent key modelled as `none`, which the
`.get` default collapses to the empty string).  Returns the JSON
response, the value of `current_thread_id` on exit, and the trace of
remote calls. -/
def chat (tid : Option String) (messageField : Option String) (env : ChatEnv) :
    Resp × Option String × ChatTrace :=
  let message := pyStrip (messageField.getD "")
  if message = "" then
    (⟨400, none, none, some "No message provided", none⟩, tid, noCalls)
  else
    if handleTruthy tid = false then
      match create_thread env with
      | ThreadResult.err detail =>
        (⟨502, none, none, some ("Create thread failed: " ++ detail), none⟩,
          tid, ⟨1, ⟨0, 0, 0, 0⟩⟩)
      | ThreadResult.ok newTid =>
        if handleTruthy newTid = false then
          (⟨502, none, none, some "Create thread failed: unknown", none⟩,
            newTid, ⟨1, ⟨0, 0, 0, 0⟩⟩)
        else
          let t := newTid.getD ""
          let r := send_message t message env.send
          match truthy r.1 with
          | some reply =>
            (⟨200, some reply, newTid, none, none⟩, newTid, ⟨1, r.2⟩)
          | none =>
            (⟨502, none, none, some "Failed to get response from agent", none⟩,
              newTid, ⟨1, r.2⟩)
    else
      let t := tid.getD ""
      let r := send_message t message env.send
      match truthy r.1 with
      | some reply =>
        (⟨200, some reply, tid, none, none⟩, tid, ⟨0, r.2⟩)
      | none =>
        (⟨502, none, none, some "Failed to get response from agent", none⟩,
          tid, ⟨0, r.2⟩)

/-- The `/new-conversation` route (app.py lines 254-259): clear the
stored handle unconditionally and report success. -/
def new_conversation (tid : Option String) : Resp × Option String :=
  let _ := tid
  (⟨200, none, none, none, some "New conversation started"⟩, none)

/-- Python's `s[-k:]` on a string modelled as a character list: the last
`k` characters, or the whole string when `k = 0` (negative zero slicing
yields the full string) or when `k` exceeds the length. -/
def pyLastSlice (s : List Char) (k : Nat) : List Char :=
  if k = 0 then s else s.drop (s.length - k)

/-- `_mask(s, show_last=4)` (app.py lines 42-45): the empty string stays
empty; otherwise all but the last `show_last` characters are replaced by
asterisks.  Strings are modelled as character lists so that the masked
result can be compared with the raw credential character by character. -/
def mask (s : List Char) (show_last : Nat) : List Char :=
  if s = [] then []
  else List.replicate (s.length - show_last) '*' ++ pyLastSlice s show_last

/-- Environment-derived configuration (app.py lines 26-29), after the
strip/rstrip sanitisation.  The credential is a character list. -/
structure Config where
  endpointUrl : String
  apiKey : List Char
  agentId : String
deriving DecidableEq

/-- The body of the `/health` response (app.py lines 262-275).  The only
field derived from the credential characters is `api_key_masked`; the
others expose presence (`bool(API_KEY)`) and length. -/
structure HealthBody where
  status : String
  endpointUrl : String
  api_version : String
  agent_id_set : Bool
  api_key_present : Bool
  api_key_len : Nat
  api_key_masked : List Char
deriving DecidableEq

/-- The `/health` route (app.py lines 262-275). -/
def health (cfg : Config) : HealthBody :=
  { status := "healthy"
    endpointUrl := cfg.endpointUrl
    api_version := "v1"
    agent_id_set := cfg.agentId ≠ "" ∧ cfg.agentId ≠ "your-agent-id"
    api_key_present := cfg.apiKey ≠ []
    api_key_len := if cfg.apiKey ≠ [] then cfg.apiKey.length else 0
    api_key_masked := mask cfg.apiKey 4 }

/-- A poll response on which the loop keeps polling: HTTP 200 with a run
status that is neither `completed` nor a terminal failure. -/
def contPoll (p : PollResp) : Prop :=
  p.status = 200 ∧ p.runStatus ≠ some "completed" ∧ isFailureStatus p.runStatus = false

instance (p : PollResp) : Decidable (contPoll p) := by
  unfold contPoll; infer_instance

/-- A concrete environment whose 45 polls all report `in_progress`
(used to instantiate the soft-timeout theorem). -/
def inProgressEnv : SendEnv :=
  ⟨200, ⟨200, some "run-1"⟩, fun _ => ⟨200, some "in_progress", none, none⟩, ⟨200, []⟩⟩

/-- A concrete environment whose polls report `queued` twice and then
`failed` with a nested last error (used to instantiate the
terminal-failure theorem). -/
def failAt2Env : SendEnv :=
  ⟨200, ⟨200, some "run-1"⟩,
    fun i => if i < 2 then ⟨200, some "queued", none, none⟩
             else ⟨200, some "failed", some "server_error", some "boom"⟩,
    ⟨200, []⟩⟩

/-- A concrete `/chat` environment with a healthy thread-creation
response on top of `inProgressEnv`. -/
def trivialChatEnv : ChatEnv := ⟨⟨200, some "tid-1"⟩, "", inProgressEnv⟩

/-- A concrete `/chat` environment whose thread creation answers 200
with a body lacking an `id`. -/
def noIdChatEnv : ChatEnv := ⟨⟨200, none⟩, "", inProgressEnv⟩

/-- The assistant entry with the newest timestamp in `sampleListing`. -/
def sampleNewest : Message :=
  ⟨some "assistant", 10, [Block.dict (TextField.dictVal (some "A10")) none]⟩

/-- A concrete messages listing with a user entry and assistant entries
at timestamps 5, 10, 3, deliberately not sorted. -/
def sampleListing : List Message :=
  [⟨some "assistant", 5, [Block.dict (TextField.dictVal (some "A5")) none]⟩,
   sampleNewest,
   ⟨some "user", 12, [Block.dict (TextField.dictVal (some "U")) none]⟩,
   ⟨some "assistant", 3, [Block.dict (TextField.dictVal (some "A3")) none]⟩]

/-- Concrete content blocks that yield no text: not a dict, a text-dict
without a value, and a text-dict with an empty value. -/
def emptyBlocks : List Block :=
  [Block.nonDict,
   Block.dict (TextField.dictVal none) (some ""),
   Block.dict (TextField.dictVal (some "")) none]

end AgentApp

namespace AgentApp

example : extractReply [] = noTextFallback := by decide

example :
    extractReply
      [⟨some "assistant", 5, [Block.dict (TextField.dictVal (some "A5")) none]⟩,
       ⟨some "assistant", 10, [Block.dict (TextField.dictVal (some "A10")) none]⟩,
       ⟨some "user", 12, [Block.dict (TextField.dictVal (some "U")) none]⟩,
       ⟨some "assistant", 3, [Block.dict (TextField.dictVal (some "A3")) none]⟩]
      = "A10" := by decide

example : pyStrip "  hi\t" = "hi" := by decide

example : pyStrip " \n " = "" := by decide

example :
    send_message "T" "hi"
      ⟨200, ⟨200, some "r"⟩, fun _ => ⟨200, some "in_progress", none, none⟩, ⟨200, []⟩⟩
      = (some apologyText, ⟨1, 1, 45, 0⟩) := by decide

example :
    send_message "T" "hi"
      ⟨200, ⟨200, some "r"⟩, fun _ => ⟨200, some "failed", none, none⟩, ⟨200, []⟩⟩
      = (none, ⟨1, 1, 1, 0⟩) := by decide

example :
    (chat none (some " ")
      ⟨⟨200, some "tid"⟩, "", ⟨200, ⟨200, some "r"⟩, fun _ => ⟨200, some "completed", none, none⟩, ⟨200, []⟩⟩⟩).1.status
      = 400 := by decide

example :
    (chat none (some "hello")
      ⟨⟨200, some "tid"⟩, "", ⟨200, ⟨200, some "r"⟩, fun _ => ⟨200, some "completed", none, none⟩, ⟨200, []⟩⟩⟩).1
      = ⟨200, some noTextFallback, some "tid", none, none⟩ := by decide

theorem pollLoop_cont (env : SendEnv) :
    ∀ (fuel i : Nat), (∀ j, j < fuel → contPoll (env.polls (i + j))) →
    pollLoop env i fuel = (some apologyText, fuel, 0) := by
  intro fuel
  induction fuel with
  | zero => intro i _; rfl
  | succ fuel ih =>
    intro i h
    have hc := h 0 (Nat.succ_pos fuel)
    rw [Nat.add_zero] at hc
    have ih' : pollLoop env (i + 1) fuel = (some apologyText, fuel, 0) := by
      refine ih (i + 1) (fun j hj => ?_)
      have hj' := h (j + 1) (Nat.succ_lt_succ hj)
      have he : i + (j + 1) = i + 1 + j := by omega
      rwa [he] at hj'
    simp only [pollLoop]
    simp [hc.1, hc.2.1, hc.2.2, ih']

theorem failure_ne_completed {s : Option String} (h : isFailureStatus s = true) :
    s ≠ some "completed" := by
  simp only [isFailureStatus, decide_eq_true_eq] at h
  rcases h with h | h | h <;> subst h <;> simp

theorem pollLoop_fail (env : SendEnv) :
    ∀ (k fuel i : Nat), k < fuel →
    (∀ j, j < k → contPoll (env.polls (i + j))) →
    (env.polls (i + k)).status = 200 →
    isFailureStatus (env.polls (i + k)).runStatus = true →
    pollLoop env i fuel = (none, k + 1, 0) := by
  intro k
  induction k with
  | zero =>
    intro fuel i hk _ h200 hfail
    match fuel, hk with
    | fuel + 1, _ =>
      rw [Nat.add_zero] at h200 hfail
      simp only [pollLoop]
      simp [h200, failure_ne_completed hfail, hfail]
  | succ k ih =>
    intro fuel i hk hcont h200 hfail
    match fuel, hk with
    | fuel + 1, hk =>
      have hc := hcont 0 (Nat.succ_pos k)
      rw [Nat.add_zero] at hc
      have ih' : pollLoop env (i + 1) fuel = (none, k + 1, 0) := by
        refine ih fuel (i + 1) (by omega) (fun j hj => ?_) ?_ ?_
        · have hj' := hcont (j + 1) (Nat.succ_lt_succ hj)
          have he : i + (j + 1) = i + 1 + j := by omega
          rwa [he] at hj'
        · have he : i + (k + 1) = i + 1 + k := by omega
          rwa [he] at h200
        · have he : i + (k + 1) = i + 1 + k := by omega
          rwa [he] at hfail
      simp only [pollLoop]
      simp [hc.1, hc.2.1, hc.2.2, ih']

theorem send_message_entry (tid msg : String) (env : SendEnv)
    (hmsg : env.msgCreateStatus = 200 ∨ env.msgCreateStatus = 201)
    (hrun : env.runCreate.status = 200 ∨ env.runCreate.status = 201)
    (hid : truthy env.runCreate.id ≠ none) :
    send_message tid msg env =
      ((pollLoop env 0 pollBudget).1,
        ⟨1, 1, (pollLoop env 0 pollBudget).2.1, (pollLoop env 0 pollBudget).2.2⟩) := by
  have hm : ¬(env.msgCreateStatus ≠ 200 ∧ env.msgCreateStatus ≠ 201) := by
    rcases hmsg with h | h <;> simp [h]
  have hr : ¬(env.runCreate.status ≠ 200 ∧ env.runCreate.status ≠ 201) := by
    rcases hrun with h | h <;> simp [h]
  unfold send_message
  rw [if_neg hm, if_neg hr, if_neg hid]

/-- C1: when message post and run creation succeed and every one of the
45 status polls answers HTTP 200 with a status that is neither
`completed` nor `failed`/`cancelled`/`expired`, `send_message` makes
exactly 45 status polls (and no listing call) and returns the fixed
apology string; a `/chat` request driving this exchange surfaces it as a
successful HTTP 200 reply with the apology in the `response` field, not
as an error. -/
theorem c1_soft_timeout_returns_apology (tid msg : String) (env : SendEnv)
    (hmsg : env.msgCreateStatus = 200 ∨ env.msgCreateStatus = 201)
    (hrun : env.runCreate.status = 200 ∨ env.runCreate.status = 201)
    (hid : truthy env.runCreate.id ≠ none)
    (hpolls : ∀ i, i < 45 → contPoll (env.polls i)) :
    send_message tid msg env = (some apologyText, ⟨1, 1, 45, 0⟩) ∧
    (∀ (t : String) (mf : Option String) (tc : ThreadCreateResp) (d : String),
      t ≠ "" → pyStrip (mf.getD "") ≠ "" →
      (chat (some t) mf ⟨tc, d, env⟩).1 = ⟨200, some apologyText, some t, none, none⟩) := by
  have hp : pollLoop env 0 pollBudget = (some apologyText, 45, 0) := by
    have := pollLoop_cont env pollBudget 0 (fun j hj => by simpa using hpolls j hj)
    simpa [pollBudget] using this
  have hsend : send_message tid msg env = (some apologyText, ⟨1, 1, 45, 0⟩) := by
    rw [send_message_entry tid msg env hmsg hrun hid, hp]
  refine ⟨hsend, fun t mf tc d ht hm => ?_⟩
  have hsend' : send_message t (pyStrip (mf.getD "")) env = (some apologyText, ⟨1, 1, 45, 0⟩) := by
    rw [send_message_entry t _ env hmsg hrun hid, hp]
  unfold chat
  simp only [hm, if_false, handleTruthy, ht]
  simp [hsend', truthy, apologyText, ht]

/-- C6: when message post and run creation succeed and the first `k`
polls answer HTTP 200 with a non-terminal status, a poll answering
HTTP 200 with status `failed`, `cancelled` or `expired` makes
`send_message` abort immediately with the error outcome `none`
(Python's `None`): exactly `k + 1` polls and no messages-listing call
(the nested `last_error` code/message is only read for logging). -/
theorem c6_terminal_failure_aborts (tid msg : String) (env : SendEnv) (k : Nat)
    (hmsg : env.msgCreateStatus = 200 ∨ env.msgCreateStatus = 201)
    (hrun : env.runCreate.status = 200 ∨ env.runCreate.status = 201)
    (hid : truthy env.runCreate.id ≠ none)
    (hk : k < 45)
    (hcont : ∀ j, j < k → contPoll (env.polls j))
    (h200 : (env.polls k).status = 200)
    (hfail : isFailureStatus (env.polls k).runStatus = true) :
    send_message tid msg env = (none, ⟨1, 1, k + 1, 0⟩) := by
  have hp : pollLoop env 0 pollBudget = (none, k + 1, 0) := by
    refine pollLoop_fail env k pollBudget 0 (by simpa [pollBudget] using hk)
      (fun j hj => by simpa using hcont j hj) (by simpa using h200) (by simpa using hfail)
  rw [send_message_entry tid msg env hmsg hrun hid, hp]

/-- C7: a `/chat` request whose `message` field is absent, empty, or
whitespace-only after stripping is rejected with HTTP 400 and an error
body, the stored handle is untouched, and no remote call of any kind is
made. -/
theorem c7_empty_message_no_remote_calls (tid : Option String) (mf : Option String)
    (env : ChatEnv) (h : pyStrip (mf.getD "") = "") :
    chat tid mf env = (⟨400, none, none, some "No message provided", none⟩, tid, noCalls) := by
  unfold chat
  simp [h]

/-- C10: when thread creation answers HTTP 200 or 201 with a body
lacking an `id`, `create_thread` returns the absent handle (Python's
`None`), not an error dict; `/chat` then responds 502 with the error
string `Create thread failed: unknown` and the stored handle remains
unset. -/
theorem c10_created_thread_without_id (mf : Option String) (env : ChatEnv)
    (hm : pyStrip (mf.getD "") ≠ "")
    (hst : env.threadCreate.status = 200 ∨ env.threadCreate.status = 201)
    (hid : env.threadCreate.id = none) :
    create_thread env = ThreadResult.ok none ∧
    chat none mf env =
      (⟨502, none, none, some "Create thread failed: unknown", none⟩, none,
        ⟨1, ⟨0, 0, 0, 0⟩⟩) := by
  have hc : create_thread env = ThreadResult.ok none := by
    unfold create_thread
    rw [if_pos hst, hid]
  refine ⟨hc, ?_⟩
  unfold chat
  simp [hm, hc, handleTruthy]

theorem firstBlockText_append_of_none (pre l : List Block)
    (h : ∀ b ∈ pre, truthy (blockTxt b) = none) :
    firstBlockText (pre ++ l) = firstBlockText l := by
  induction pre with
  | nil => rfl
  | cons b bs ih =>
    rw [List.cons_append]
    simp only [firstBlockText, h b (List.mem_cons_self b bs)]
    exact ih (fun b' hb' => h b' (List.mem_cons_of_mem b hb'))

theorem scanMessages_eq_none_iff (l : List Message) :
    scanMessages l = none ↔
      ∀ m ∈ l, m.role = some "assistant" → firstBlockText m.content = none := by
  induction l with
  | nil => simp [scanMessages]
  | cons x xs ih =>
    simp only [scanMessages]
    by_cases hr : x.role = some "assistant"
    · rw [if_pos hr]
      cases hfx : firstBlockText x.content with
      | some s =>
        simp only []
        constructor
        · intro h; simp at h
        · intro h
          have := h x (List.mem_cons_self x xs) hr
          rw [hfx] at this
          simp at this
      | none =>
        simp only [ih]
        constructor
        · intro h m hm hrole
          rcases List.mem_cons.mp hm with rfl | hm'
          · exact hfx
          · exact h m hm' hrole
        · intro h m hm hrole
          exact h m (List.mem_cons_of_mem x hm) hrole
    · rw [if_neg hr, ih]
      constructor
      · intro h m hm hrole
        rcases List.mem_cons.mp hm with rfl | hm'
        · exact absurd hrole hr
        · exact h m hm' hrole
      · intro h m hm hrole
        exact h m (List.mem_cons_of_mem x hm) hrole

theorem scanMessages_eq_some (l : List Message) (s : String)
    (h : scanMessages l = some s) :
    ∃ m, m ∈ l ∧ m.role = some "assistant" ∧ firstBlockText m.content = some s := by
  induction l with
  | nil => exact absurd h (by simp [scanMessages])
  | cons x xs ih =>
    rw [scanMessages] at h
    by_cases hr : x.role = some "assistant"
    · rw [if_pos hr] at h
      cases hfx : firstBlockText x.content with
      | some s' =>
        rw [hfx] at h
        exact ⟨x, List.mem_cons_self x xs, hr, by rw [hfx]; exact h⟩
      | none =>
        rw [hfx] at h
        obtain ⟨m, hm, hrole, htext⟩ := ih h
        exact ⟨m, List.mem_cons_of_mem x hm, hrole, htext⟩
    · rw [if_neg hr] at h
      obtain ⟨m, hm, hrole, htext⟩ := ih h
      exact ⟨m, List.mem_cons_of_mem x hm, hrole, htext⟩

theorem scanMessages_sorted_finds (l : List Message) (m : Message) (t : String)
    (hsort : l.Sorted newerEq) (hm : m ∈ l) (hrole : m.role = some "assistant")
    (htext : firstBlockText m.content = some t)
    (hmax : ∀ m' ∈ l, m'.role = some "assistant" → m' ≠ m →
      m'.created_at < m.created_at) :
    scanMessages l = some t := by
  induction l with
  | nil => cases hm
  | cons x xs ih =>
    rw [List.sorted_cons] at hsort
    obtain ⟨hx, hxs⟩ := hsort
    by_cases hxm : x = m
    · subst hxm
      simp [scanMessages, hrole, htext]
    · rcases List.mem_cons.mp hm with rfl | hm'
      · exact absurd rfl hxm
      · have hr : ¬x.role = some "assistant" := by
          intro hr
          have h1 : x.created_at < m.created_at :=
            hmax x (List.mem_cons_self x xs) hr hxm
          have h2 : newerEq x m := hx m hm'
          unfold newerEq at h2
          omega
        rw [scanMessages, if_neg hr]
        exact ih hxs hm'
          (fun m' hm'' hrole' hne => hmax m' (List.mem_cons_of_mem x hm'') hrole' hne)

theorem count_map_ge_two {α β : Type} [DecidableEq β] (f : α → β) {l : List α}
    {a b : α} {v : β} (ha : a ∈ l) (hb : b ∈ l) (hne : b ≠ a)
    (hfa : f a = v) (hfb : f b = v) : 2 ≤ (l.map f).count v := by
  obtain ⟨s, u, rfl⟩ := List.append_of_mem ha
  have hbsu : b ∈ s ++ u := by
    rcases List.mem_append.mp hb with h | h
    · exact List.mem_append.mpr (Or.inl h)
    · rcases List.mem_cons.mp h with rfl | h
      · exact absurd rfl hne
      · exact List.mem_append.mpr (Or.inr h)

  have h1 : 1 ≤ ((s.map f).count v + (u.map f).count v) := by
    rw [← List.count_append, ← List.map_append, List.one_le_count_iff]
    exact List.mem_map.mpr ⟨b, hbsu, hfb⟩
  rw [List.map_append, List.map_cons, List.count_append, List.count_cons]
  simp only [hfa, beq_self_eq_true, if_true]
  omega

/-- C2: when the (user and assistant) messages listing has assistant
entries whose `created_at` timestamps are 5, 10, 3 in any order, the
assistant entry with timestamp 10 — the newest — is the one whose text
is extracted: the scan runs newest-first over an explicitly re-sorted
listing. -/
theorem c2_newest_assistant_selected (data : List Message) (m : Message) (t : String)
    (hperm : ((data.filter (fun x => x.role = some "assistant")).map
      Message.created_at).Perm [5, 10, 3])
    (_huser : ∃ u ∈ data, u.role = some "user")
    (hm : m ∈ data) (hrole : m.role = some "assistant") (hts : m.created_at = 10)
    (htext : firstBlockText m.content = some t) :
    extractReply data = t := by
  have hmax : ∀ m' ∈ data, m'.role = some "assistant" → m' ≠ m →
      m'.created_at < m.created_at := by
    intro m' hm' hrole' hne
    have hmem' : m' ∈ data.filter (fun x => x.role = some "assistant") :=
      List.mem_filter.mpr ⟨hm', by simp [hrole']⟩
    have hmemm : m ∈ data.filter (fun x => x.role = some "assistant") :=
      List.mem_filter.mpr ⟨hm, by simp [hrole]⟩
    have hvals : m'.created_at ∈ ([5, 10, 3] : List Nat) := by
      rw [← hperm.mem_iff]
      exact List.mem_map.mpr ⟨m', hmem', rfl⟩
    have hten : m'.created_at ≠ 10 := by
      intro h10
      have h2 : 2 ≤ ((data.filter (fun x => x.role = some "assistant")).map
          Message.created_at).count 10 :=
        count_map_ge_two Message.created_at hmemm hmem' hne hts h10
      rw [hperm.count_eq] at h2
      simp [List.count_cons] at h2
    rw [hts]
    have hvals' : m'.created_at = 5 ∨ m'.created_at = 10 ∨ m'.created_at = 3 := by
      simpa using hvals
    rcases hvals' with h | h | h <;> omega
  have hsorted : List.Sorted newerEq (sortByCreatedDesc data) :=
    List.sorted_insertionSort newerEq data
  have hperm2 : List.Perm (sortByCreatedDesc data) data :=
    List.perm_insertionSort newerEq data
  have hscan : scanMessages (sortByCreatedDesc data) = some t := by
    refine scanMessages_sorted_finds _ m t hsorted (hperm2.mem_iff.mpr hm) hrole htext ?_
    intro m' hm' hrole' hne
    exact hmax m' (hperm2.mem_iff.mp hm') hrole' hne
  unfold extractReply
  rw [hscan]

/-- C5: a content block with a structured text-dict shape carrying value
X yields X, a block with the flat value shape carrying Y yields Y,
whenever it is the first block with a truthy text encountered (blocks
before it may yield nothing); and on a block carrying both shapes the
structured one wins, showing it is checked first. -/
theorem c5_block_shapes (X Y : String) (v : Option String) (pre rest₁ rest₂ : List Block)
    (hX : X ≠ "") (hY : Y ≠ "")
    (hpre : ∀ b ∈ pre, truthy (blockTxt b) = none) :
    firstBlockText (pre ++ Block.dict (TextField.dictVal (some X)) v :: rest₁) = some X ∧
    firstBlockText (pre ++ Block.dict TextField.absent (some Y) :: rest₂) = some Y ∧
    blockTxt (Block.dict (TextField.dictVal (some X)) (some Y)) = some X := by
  rw [firstBlockText_append_of_none pre _ hpre, firstBlockText_append_of_none pre _ hpre]
  refine ⟨?_, ?_, rfl⟩
  · simp [firstBlockText, blockTxt, truthy, hX]
  · simp [firstBlockText, blockTxt, truthy, hY]

/-- C9 as stated is false: the fixed fallback string can also be
returned as a genuinely extracted assistant text.  In this listing the
only assistant message carries exactly the fallback sentence as its
block value, so `extractReply` returns the fixed string even though an
assistant message does yield a non-empty text value — refuting the
"only if" direction of the claimed equivalence. -/
theorem c9_fallback_iff_counterexample :
    extractReply
        [⟨some "assistant", 1, [Block.dict (TextField.dictVal (some noTextFallback)) none]⟩]
      = noTextFallback ∧
    ¬(∀ m ∈ [(⟨some "assistant", 1,
        [Block.dict (TextField.dictVal (some noTextFallback)) none]⟩ : Message)],
      m.role = some "assistant" → firstBlockText m.content = none) := by
  constructor
  · decide
  · decide

/-- C9 (amended): provided no assistant message's extracted text is the
fixed fallback sentence itself, the fallback string is returned if and
only if no assistant message anywhere in the listing yields a non-empty
text value; and extraction falls through past any assistant message
without extractable text to the next one in scan order. -/
theorem c9_fallback_iff_no_assistant_text (data : List Message)
    (hno : ∀ m ∈ data, m.role = some "assistant" →
      firstBlockText m.content ≠ some noTextFallback) :
    (extractReply data = noTextFallback ↔
      ∀ m ∈ data, m.role = some "assistant" → firstBlockText m.content = none) ∧
    (∀ (m : Message) (ms : List Message), m.role = some "assistant" →
      firstBlockText m.content = none → scanMessages (m :: ms) = scanMessages ms) := by
  have hperm2 : List.Perm (sortByCreatedDesc data) data :=
    List.perm_insertionSort newerEq data
  constructor
  · constructor
    · intro h
      cases hscan : scanMessages (sortByCreatedDesc data) with
      | none =>
        intro m hm hrole
        exact (scanMessages_eq_none_iff _).mp hscan m (hperm2.mem_iff.mpr hm) hrole
      | some s =>
        unfold extractReply at h
        rw [hscan] at h
        obtain ⟨m, hm, hrole, htext⟩ := scanMessages_eq_some _ _ hscan
        have hs : s = noTextFallback := h
        rw [hs] at htext
        exact absurd htext (hno m (hperm2.mem_iff.mp hm) hrole)
    · intro h
      unfold extractReply
      rw [(scanMessages_eq_none_iff _).mpr
        (fun m hm hrole => h m (hperm2.mem_iff.mp hm) hrole)]
  · intro m ms hrole hnone
    simp [scanMessages, hrole, hnone]

/-- C3 as stated is false: for a 4-character credential the masked
field is the raw credential itself, so the `/health` body does contain
the configured key verbatim. -/
theorem c3_short_key_counterexample :
    (health ⟨"https://ep", ['a', 'b', 'c', 'd'], "agent-1"⟩).api_key_masked
      = ['a', 'b', 'c', 'd'] := by decide

theorem mask_four_eq (s : List Char) (hs : s ≠ []) :
    mask s 4 = List.replicate (s.length - 4) '*' ++ s.drop (s.length - 4) := by
  unfold mask pyLastSlice
  rw [if_neg hs, if_neg (by norm_num)]

/-- C3 (amended): for every configured credential of length greater
than 4 whose leading characters (all but the last 4) are not all
asterisks, the `/health` body's only credential-derived string — the
masked field — does not contain the raw credential; the remaining
credential-derived fields expose only presence and length. -/
theorem c3_health_hides_long_key (cfg : Config)
    (hlen : 4 < cfg.apiKey.length)
    (hstar : ∃ c ∈ cfg.apiKey.take (cfg.apiKey.length - 4), c ≠ '*') :
    ¬(cfg.apiKey <:+: (health cfg).api_key_masked) ∧
    (health cfg).api_key_present = true ∧
    (health cfg).api_key_len = cfg.apiKey.length := by
  have hne : cfg.apiKey ≠ [] := by
    intro h
    rw [h] at hlen
    simp at hlen
  have hmask : (health cfg).api_key_masked =
      List.replicate (cfg.apiKey.length - 4) '*' ++ cfg.apiKey.drop (cfg.apiKey.length - 4) :=
    mask_four_eq cfg.apiKey hne
  refine ⟨?_, by simp [health, hne], by simp [health, hne]⟩
  intro hinf
  have hlen_eq : (health cfg).api_key_masked.length = cfg.apiKey.length := by
    rw [hmask, List.length_append, List.length_replicate, List.length_drop]
    omega
  have heq : cfg.apiKey = (health cfg).api_key_masked :=
    hinf.sublist.eq_of_length (by rw [hlen_eq])
  obtain ⟨c, hc, hcne⟩ := hstar
  have htake : cfg.apiKey.take (cfg.apiKey.length - 4) =
      List.replicate (cfg.apiKey.length - 4) '*' := by
    have h1 : cfg.apiKey.take (cfg.apiKey.length - 4) =
        ((health cfg).api_key_masked).take (cfg.apiKey.length - 4) :=
      congrArg (List.take (cfg.apiKey.length - 4)) heq
    rw [h1, hmask]
    exact List.take_left' (by rw [List.length_replicate])
  rw [htake] at hc
  exact hcne (List.eq_of_mem_replicate hc)

theorem send_message_always_posts_once (t m : String) (e : SendEnv) :
    (send_message t m e).2.msgCreateCalls = 1 := by
  unfold send_message
  split
  · rfl
  · split
    · rfl
    · split <;> rfl

/-- C4: for every `/chat` request whose message is non-empty after
stripping, the response is either a 2xx with a non-null `response`
field or a 4xx/5xx with an `error` field; the two are never both
absent. -/
theorem c4_chat_response_or_error (tid : Option String) (mf : Option String)
    (env : ChatEnv) (h : pyStrip (mf.getD "") ≠ "") :
    (200 ≤ (chat tid mf env).1.status ∧ (chat tid mf env).1.status < 300 ∧
      (chat tid mf env).1.response ≠ none) ∨
    (400 ≤ (chat tid mf env).1.status ∧ (chat tid mf env).1.status < 600 ∧
      (chat tid mf env).1.error ≠ none) := by
  unfold chat
  dsimp only
  rw [if_neg h]
  split
  · split
    · right
      exact ⟨by norm_num, by norm_num, by simp⟩
    · split
      · right
        exact ⟨by norm_num, by norm_num, by simp⟩
      · split
        · left
          exact ⟨by norm_num, by norm_num, by simp⟩
        · right
          exact ⟨by norm_num, by norm_num, by simp⟩
  · split
    · left
      exact ⟨by norm_num, by norm_num, by simp⟩
    · right
      exact ⟨by norm_num, by norm_num, by simp⟩

/-- C8: `/new-conversation` always succeeds and unconditionally clears
the stored handle (no remote deletion exists in the model), so the next
non-empty `/chat` performs exactly one thread-creation call; conversely
a `/chat` arriving with a stored (truthy) handle makes no creation call
and goes straight to posting the message on that thread. -/
theorem c8_reset_clears_and_next_chat_creates (tid : Option String) (mf : Option String)
    (env : ChatEnv) (t : String)
    (hm : pyStrip (mf.getD "") ≠ "") (ht : t ≠ "") :
    new_conversation tid = (⟨200, none, none, none, some "New conversation started"⟩, none) ∧
    (chat (new_conversation tid).2 mf env).2.2.threadCreateCalls = 1 ∧
    (chat (some t) mf env).2.2.threadCreateCalls = 0 ∧
    (chat (some t) mf env).2.2.send.msgCreateCalls = 1 := by
  have hsome : (chat (some t) mf env).2.2 =
      ⟨0, (send_message t (pyStrip (mf.getD "")) env.send).2⟩ := by
    unfold chat
    dsimp only
    rw [if_neg hm,
      if_neg (show ¬(handleTruthy (some t) = false) by simp [handleTruthy, ht])]
    split <;> rfl
  refine ⟨rfl, ?_, ?_, ?_⟩
  · show (chat none mf env).2.2.threadCreateCalls = 1
    unfold chat
    dsimp only
    rw [if_neg hm, if_pos (show handleTruthy none = false from rfl)]
    split
    · rfl
    · split
      · rfl
      · split <;> rfl
  · rw [hsome]
  · rw [hsome]
    exact send_message_always_posts_once _ _ _

theorem c4_chat_response_or_error_witness :
    pyStrip ((some "hello").getD "") ≠ "" ∧
    ((200 ≤ (chat none (some "hello") trivialChatEnv).1.status ∧
        (chat none (some "hello") trivialChatEnv).1.status < 300 ∧
        (chat none (some "hello") trivialChatEnv).1.response ≠ none) ∨
      (400 ≤ (chat none (some "hello") trivialChatEnv).1.status ∧
        (chat none (some "hello") trivialChatEnv).1.status < 600 ∧
        (chat none (some "hello") trivialChatEnv).1.error ≠ none)) :=
  ⟨by decide, c4_chat_response_or_error none (some "hello") trivialChatEnv (by decide)⟩

theorem c8_reset_clears_and_next_chat_creates_witness :
    pyStrip ((some "hello").getD "") ≠ "" ∧ ("T" : String) ≠ "" ∧
    (new_conversation (some "old") =
        (⟨200, none, none, none, some "New conversation started"⟩, none) ∧
      (chat (new_conversation (some "old")).2 (some "hello") trivialChatEnv).2.2.threadCreateCalls = 1 ∧
      (chat (some "T") (some "hello") trivialChatEnv).2.2.threadCreateCalls = 0 ∧
      (chat (some "T") (some "hello") trivialChatEnv).2.2.send.msgCreateCalls = 1) :=
  ⟨by decide, by decide,
    c8_reset_clears_and_next_chat_creates (some "old") (some "hello") trivialChatEnv "T"
      (by decide) (by decide)⟩

theorem c2_newest_assistant_selected_witness :
    ((sampleListing.filter (fun x => x.role = some "assistant")).map
      Message.created_at).Perm [5, 10, 3] ∧
    (∃ u ∈ sampleListing, u.role = some "user") ∧
    sampleNewest ∈ sampleListing ∧
    firstBlockText sampleNewest.content = some "A10" ∧
    extractReply sampleListing = "A10" :=
  ⟨by decide, by decide, by decide, by decide,
    c2_newest_assistant_selected sampleListing sampleNewest "A10" (by decide) (by decide)
      (by decide) (by decide) (by decide) (by decide)⟩

theorem c5_block_shapes_witness :
    (∀ b ∈ emptyBlocks, truthy (blockTxt b) = none) ∧
    (firstBlockText
        (emptyBlocks ++ Block.dict (TextField.dictVal (some "X")) (some "Y") :: [Block.nonDict])
        = some "X" ∧
      firstBlockText (emptyBlocks ++ Block.dict TextField.absent (some "Y") :: []) = some "Y" ∧
      blockTxt (Block.dict (TextField.dictVal (some "X")) (some "Y")) = some "X") :=
  ⟨by decide,
    c5_block_shapes "X" "Y" (some "Y") emptyBlocks [Block.nonDict] [] (by decide) (by decide)
      (by decide)⟩

theorem c9_fallback_iff_no_assistant_text_witness :
    (∀ m ∈ sampleListing, m.role = some "assistant" →
      firstBlockText m.content ≠ some noTextFallback) ∧
    (extractReply sampleListing = noTextFallback ↔
      ∀ m ∈ sampleListing, m.role = some "assistant" → firstBlockText m.content = none) :=
  ⟨by decide, (c9_fallback_iff_no_assistant_text sampleListing (by decide)).1⟩

theorem c3_health_hides_long_key_witness :
    4 < (['s', 'e', 'c', 'r', 'e', 't', 'k'] : List Char).length ∧
    (¬((['s', 'e', 'c', 'r', 'e', 't', 'k'] : List Char) <:+:
        (health ⟨"https://ep", ['s', 'e', 'c', 'r', 'e', 't', 'k'], "agent-1"⟩).api_key_masked) ∧
      (health ⟨"https://ep", ['s', 'e', 'c', 'r', 'e', 't', 'k'], "agent-1"⟩).api_key_present = true ∧
      (health ⟨"https://ep", ['s', 'e', 'c', 'r', 'e', 't', 'k'], "agent-1"⟩).api_key_len
        = (['s', 'e', 'c', 'r', 'e', 't', 'k'] : List Char).length) :=
  ⟨by decide,
    c3_health_hides_long_key ⟨"https://ep", ['s', 'e', 'c', 'r', 'e', 't', 'k'], "agent-1"⟩
      (by decide) (by decide)⟩

theorem c1_soft_timeout_returns_apology_witness :
    (inProgressEnv.msgCreateStatus = 200 ∨ inProgressEnv.msgCreateStatus = 201) ∧
    (∀ i, i < 45 → contPoll (inProgressEnv.polls i)) ∧
    send_message "T" "hi" inProgressEnv =
      (some apologyText, ⟨1, 1, 45, 0⟩) :=
  ⟨by decide, by decide,
    (c1_soft_timeout_returns_apology "T" "hi" inProgressEnv (by decide) (by decide)
      (by decide) (by decide)).1⟩

theorem c6_terminal_failure_aborts_witness :
    (∀ j, j < 2 → contPoll (failAt2Env.polls j)) ∧
    isFailureStatus (failAt2Env.polls 2).runStatus = true ∧
    send_message "T" "hi" failAt2Env = (none, ⟨1, 1, 3, 0⟩) :=
  ⟨by decide, by decide,
    c6_terminal_failure_aborts "T" "hi" failAt2Env 2 (by decide) (by decide) (by decide)
      (by decide) (by decide) (by decide) (by decide)⟩

theorem c7_empty_message_no_remote_calls_witness :
    pyStrip ((some " \t ").getD "") = "" ∧
    chat (some "T") (some " \t ") trivialChatEnv =
      (⟨400, none, none, some "No message provided", none⟩, some "T", noCalls) :=
  ⟨by decide,
    c7_empty_message_no_remote_calls (some "T") (some " \t ") trivialChatEnv (by decide)⟩

theorem c10_created_thread_without_id_witness :
    pyStrip ((some "hello").getD "") ≠ "" ∧ noIdChatEnv.threadCreate.id = none ∧
    (create_thread noIdChatEnv = ThreadResult.ok none ∧
      chat none (some "hello") noIdChatEnv =
        (⟨502, none, none, some "Create thread failed: unknown", none⟩, none,
          ⟨1, ⟨0, 0, 0, 0⟩⟩)) :=
  ⟨by decide, by decide,
    c10_created_thread_without_id (some "hello") noIdChatEnv (by decide) (by decide)
      (by decide)⟩

end AgentApp
